import Mathlib

/-!
Verification of the Bot-Regional-Telkom repository core against its
natural-language specification.

The development shallowly embeds the relevant Python source:

* utils.extract_coords_from_gmaps_link  (coordinate resolver, src/utils.py)
* odp_service.ODPService                (nearest-ODP search, src/odp_service.py)
* handlers.setup_handlers               (session state machine, src/handlers.py)
* storage.SupabaseStorageManager        (photo upload, src/storage.py)

Machine floats are modelled as rationals, Python dicts as association
lists or functions into Option, exceptions as Option/Except values, and
the network / Google-Sheets / Supabase collaborators as explicit oracle
parameters.
-/

/- ### Python string helpers -/

/-- Whitespace characters stripped by the Python str.strip default
(space, tab, linefeed, return, vertical tab, form feed). -/
def pySpace : List Char := [' ', '\t', '\n', '\r', Char.ofNat 11, Char.ofNat 12]

def isPySpace (c : Char) : Bool := pySpace.contains c

/-- Python str.strip with the default argument. -/
def pyStrip (s : String) : String :=
  ⟨((s.data.dropWhile isPySpace).reverse.dropWhile isPySpace).reverse⟩

/-- Truthiness test used by the resolver guard: the string is empty or
strips to the empty string, i.e. every character is whitespace. -/
def isBlank (s : String) : Bool := s.data.all isPySpace

/-- Python startswith, working over character lists. -/
def strStarts (pat s : String) : Bool := pat.data.isPrefixOf s.data

def listInfix (needle : List Char) : List Char → Bool
  | [] => needle.isEmpty
  | c :: cs => needle.isPrefixOf (c :: cs) || listInfix needle cs

/-- Python substring containment (the "in" operator on str). -/
def strContains (needle s : String) : Bool := listInfix needle.data s.data

/- ### The coordinate regular expressions of src/utils.py

The two in-string patterns are
  pattern A :  at sign , then signed-decimal , comma , signed-decimal
  pattern Q :  one of [?&] , then q= , then the same pair
and the last-resort body pattern is the bare pair.  In these patterns
every greedy quantifier is followed by a literal that can never match a
digit, so maximal-munch parsing coincides with Python regex matching and
no backtracking is required. -/

/-- Parse a signed decimal number at the head of the input.  Returns the
matched characters and the remaining input. -/
def parseSignedDecimal (cs : List Char) : Option (List Char × List Char) :=
  let (sign, cs1) := match cs with
    | '-' :: rest => (['-'], rest)
    | _ => (([] : List Char), cs)
  let d1 := cs1.takeWhile Char.isDigit
  let r1 := cs1.dropWhile Char.isDigit
  if d1.isEmpty then none
  else match r1 with
    | '.' :: cs2 =>
      let d2 := cs2.takeWhile Char.isDigit
      let r2 := cs2.dropWhile Char.isDigit
      if d2.isEmpty then none
      else some (sign ++ d1 ++ '.' :: d2, r2)
    | _ => none

/-- Parse the comma-separated pair of signed decimals, returning the two
capture groups. -/
def parsePair (cs : List Char) : Option (String × String) :=
  match parseSignedDecimal cs with
  | none => none
  | some (lat, rest) =>
    match rest with
    | ',' :: rest2 =>
      match parseSignedDecimal rest2 with
      | none => none
      | some (lng, _) => some (⟨lat⟩, ⟨lng⟩)
    | _ => none

/-- re.search semantics: try the anchored matcher at every position from
the left and return the leftmost match. -/
def searchFrom (f : List Char → Option (String × String)) :
    List Char → Option (String × String)
  | [] => f []
  | c :: cs =>
    match f (c :: cs) with
    | some r => some r
    | none => searchFrom f cs

/-- Anchored matcher for the at-sign pattern. -/
def atPat (cs : List Char) : Option (String × String) :=
  match cs with
  | '@' :: rest => parsePair rest
  | _ => none

/-- Anchored matcher for the query-parameter pattern. -/
def qPat (cs : List Char) : Option (String × String) :=
  match cs with
  | c :: 'q' :: '=' :: rest =>
    if c = '?' ∨ c = '&' then parsePair rest else none
  | _ => none

/-- Anchored matcher for the bare decimal-pair pattern. -/
def barePat (cs : List Char) : Option (String × String) := parsePair cs

def reSearch (f : List Char → Option (String × String)) (s : String) :
    Option (String × String) :=
  searchFrom f s.data

/- ### extract_coords_from_gmaps_link (src/utils.py lines 25-69) -/

/-- Outcome of the single requests.get call: either the final redirected
URL together with the response body, or a raised network error or
timeout. -/
inductive NetResult where
  | ok (finalUrl : String) (body : String)
  | err
  deriving DecidableEq, Repr

/-- Result of one resolver run: the returned value (the "lat,lng" string
or None), how many network requests were issued, and which strategy
produced the result (1 = at-pattern on the input, 2 = q-pattern on the
input, 3 and 4 = the same patterns on the final URL, 5 = body scan). -/
structure ExtractOutcome where
  result : Option String
  networkCalls : Nat
  strategy : Option Nat
  deriving DecidableEq, Repr

def fmtGroups (g : String × String) : String := g.1 ++ "," ++ g.2

/-- Shallow embedding of utils.extract_coords_from_gmaps_link.  The
try/except wrapper catches the network exception, so a NetResult.err with
no in-string match yields the value none rather than a propagated
error. -/
def extract_coords_from_gmaps_link (link : String) (net : NetResult) :
    ExtractOutcome :=
  if isBlank link then ⟨none, 0, none⟩
  else
    match reSearch atPat link with
    | some g => ⟨some (fmtGroups g), 0, some 1⟩
    | none =>
      match reSearch qPat link with
      | some g => ⟨some (fmtGroups g), 0, some 2⟩
      | none =>
        match net with
        | NetResult.err => ⟨none, 1, none⟩
        | NetResult.ok finalUrl body =>
          match reSearch atPat finalUrl with
          | some g => ⟨some (fmtGroups g), 1, some 3⟩
          | none =>
            match reSearch qPat finalUrl with
            | some g => ⟨some (fmtGroups g), 1, some 4⟩
            | none =>
              match reSearch barePat body with
              | some g => ⟨some (fmtGroups g), 1, some 5⟩
              | none => ⟨none, 1, none⟩

/- ### Decimal-string denotation

The bot feeds extracted coordinate strings to the Python float
constructor; we give decimal literals their exact rational value to
state what the extracted strings denote. -/

def digitsVal (ds : List Char) : Nat :=
  ds.foldl (fun a c => 10 * a + (c.toNat - 48)) 0

/-- Rational denotation of a string of the shape produced by the
patterns: optional minus sign, digits, a dot, digits.  The value is
assembled with integer arithmetic and a single mkRat so that it
evaluates by kernel reduction. -/
def decToRat (s : String) : Option ℚ :=
  let (neg, cs) := match s.data with
    | '-' :: rest => (true, rest)
    | cs => (false, cs)
  let d1 := cs.takeWhile Char.isDigit
  let r1 := cs.dropWhile Char.isDigit
  if d1.isEmpty then none
  else match r1 with
    | '.' :: cs2 =>
      let d2 := cs2.takeWhile Char.isDigit
      if d2.isEmpty ∨ ¬ (cs2.dropWhile Char.isDigit).isEmpty then none
      else
        let n : Int := Int.ofNat (digitsVal d1 * 10 ^ d2.length + digitsVal d2)
        some (mkRat (if neg then -n else n) (10 ^ d2.length))
    | _ => none

/- ### The Python float constructor

pandas astype(float) applies the float conversion to every cell of the
LATITUDE and LONGITUDE columns; an unconvertible cell raises ValueError.
We model the accepted decimal forms exactly (optional surrounding
whitespace, optional sign, integer and/or fractional digits, optional
exponent); the special literals inf and nan are not modelled, as no
claim depends on them. -/

def pyFloat? (s : String) : Option ℚ :=
  let cs0 := (pyStrip s).data
  let (neg, cs) := match cs0 with
    | '+' :: r => (false, r)
    | '-' :: r => (true, r)
    | _ => (false, cs0)
  let ip := cs.takeWhile Char.isDigit
  let cs1 := cs.dropWhile Char.isDigit
  let (fp, cs2) := match cs1 with
    | '.' :: r => (r.takeWhile Char.isDigit, r.dropWhile Char.isDigit)
    | _ => (([] : List Char), cs1)
  let hasDot : Bool := match cs1 with
    | '.' :: _ => true
    | _ => false
  if ip.isEmpty ∧ (¬ hasDot ∨ fp.isEmpty) then none
  else
    let mnum : Nat := digitsVal ip * 10 ^ fp.length + digitsVal fp
    let mden : Nat := 10 ^ fp.length
    match cs2 with
    | [] => some (mkRat (if neg then -(Int.ofNat mnum) else Int.ofNat mnum) mden)
    | e :: r =>
      if e = 'e' ∨ e = 'E' then
        let (eneg, r1) := match r with
          | '+' :: rr => (false, rr)
          | '-' :: rr => (true, rr)
          | _ => (false, r)
        let ed := r1.takeWhile Char.isDigit
        let rest := r1.dropWhile Char.isDigit
        if ed.isEmpty ∨ ¬ rest.isEmpty then none
        else
          let num : Nat := if eneg then mnum else mnum * 10 ^ digitsVal ed
          let den : Nat := if eneg then mden * 10 ^ digitsVal ed else mden
          some (mkRat (if neg then -(Int.ofNat num) else Int.ofNat num) den)
      else none

/- ### ODPService (src/odp_service.py)

The Google-Sheets loader get_sheet_data_by_name returns either None (a
raised and logged exception) or the raw cell grid; a raw cell that is
absent from its row is modelled as a missing value (pandas NaN). -/

structure DataFrame where
  header : List String
  rows : List (List String)
  deriving DecidableEq, Repr

/-- ODPService.get_odp_dataframe: None when the loader failed, when the
grid is empty, or when it holds only the header row; otherwise the
header/rows split. -/
def get_odp_dataframe (data : Option (List (List String))) :
    Option DataFrame :=
  match data with
  | none => none
  | some [] => none
  | some (h :: rest) => if rest.isEmpty then none else some ⟨h, rest⟩

def colIdx (header : List String) (c : String) : Option Nat :=
  header.indexOf? c

/-- Cell of a dataframe row under a named column; none models NaN. -/
def cell (header : List String) (row : List String) (c : String) :
    Option String :=
  match colIdx header c with
  | none => none
  | some i => row.get? i

def requiredCols : List String := ["STO", "ODP", "LATITUDE", "LONGITUDE"]

/-- dropna on the subset STO, ODP, LATITUDE, LONGITUDE. -/
def eligibleRaw (df : DataFrame) : List (List String) :=
  df.rows.filter fun r => requiredCols.all fun c => (cell df.header r c).isSome

/-- A row of the result frame: the four mandatory columns converted, the
opaque AVAI availability cell, and the computed DISTANCE_KM value. -/
structure ORow where
  sto : String
  odp : String
  lat : ℚ
  lon : ℚ
  avai : Option String
  dist : ℚ
  deriving DecidableEq, Repr

/-- astype(float) on one filtered row followed by the geodesic distance
computed from the user location; none models the raised ValueError of an
unparseable coordinate. -/
def parseRow (header : List String) (u : ℚ × ℚ)
    (geod : ℚ × ℚ → ℚ × ℚ → ℚ) (r : List String) : Option ORow :=
  match cell header r "STO", cell header r "ODP",
      cell header r "LATITUDE", cell header r "LONGITUDE" with
  | some sto, some odp, some lats, some lons =>
    match pyFloat? lats, pyFloat? lons with
    | some la, some lo =>
      some { sto := sto, odp := odp, lat := la, lon := lo,
             avai := if header.contains "AVAI" then cell header r "AVAI"
                     else some "N/A",
             dist := geod u (la, lo) }
    | _, _ => none
  | _, _, _, _ => none

/-- Column-wise astype over the filtered rows; a single unparseable cell
fails the whole conversion, exactly as the raised ValueError aborts the
whole pandas expression. -/
def astypeRows (header : List String) (u : ℚ × ℚ)
    (geod : ℚ × ℚ → ℚ × ℚ → ℚ) : List (List String) → Option (List ORow)
  | [] => some []
  | r :: rs =>
    match parseRow header u geod r, astypeRows header u geod rs with
    | some o, some os => some (o :: os)
    | _, _ => none

/-- Key order of the sort: ascending DISTANCE_KM. -/
def distLE (a b : ORow) : Prop := a.dist ≤ b.dist

instance : DecidableRel distLE := fun a b =>
  inferInstanceAs (Decidable (a.dist ≤ b.dist))

instance : IsTotal ORow distLE := ⟨fun a b => le_total a.dist b.dist⟩

instance : IsTrans ORow distLE := ⟨fun _ _ _ h1 h2 => le_trans h1 h2⟩

/-- The contract of pandas sort_values(by="DISTANCE_KM"): the output is
a permutation of the input that is ascending in the key.  The default
kind is quicksort, which the pandas documentation states is not stable,
so the order among equal keys is any order satisfying this contract. -/
def ValidSort (sortv : List ORow → List ORow) : Prop :=
  ∀ l, List.Perm (sortv l) l ∧ List.Sorted distLE (sortv l)

/-- ODPService.find_nearest_odp, parameterized by the sort_values
behavior and by the geopy geodesic distance function. -/
def find_nearest_odp (sortv : List ORow → List ORow)
    (geod : ℚ × ℚ → ℚ × ℚ → ℚ) (data : Option (List (List String)))
    (userLat userLon : ℚ) (limit : Nat) : Option (List ORow) :=
  match get_odp_dataframe data with
  | none => none
  | some df =>
    if requiredCols.all (fun c => df.header.contains c) then
      match astypeRows df.header (userLat, userLon) geod (eligibleRaw df) with
      | none => none
      | some rows => some ((sortv rows).take limit)
    else none

/-- The two failure markers as the caller process_odp_nearest in
src/handlers.py distinguishes them: None from find_nearest_odp is
reported as a Google-Sheets failure, an empty result frame as invalid
data, and anything else as results. -/
inductive OdpReply where
  | unavailable
  | emptyInvalid
  | results (l : List ORow)
  deriving DecidableEq, Repr

def process_odp_nearest_reply (sortv : List ORow → List ORow)
    (geod : ℚ × ℚ → ℚ × ℚ → ℚ) (data : Option (List (List String)))
    (lat lon : ℚ) : OdpReply :=
  match find_nearest_odp sortv geod data lat lon 5 with
  | none => OdpReply.unavailable
  | some [] => OdpReply.emptyInvalid
  | some l => OdpReply.results l

/-- The stable sort: what the spec asserts sort_values does on ties. -/
def stableSort (l : List ORow) : List ORow := List.insertionSort distLE l

/-- A valid but deliberately tie-reversing sort, witnessing that the
sort_values contract does not pin down the tie order. -/
def swapSort (l : List ORow) : List ORow :=
  List.insertionSort distLE l.reverse

theorem validSort_stableSort : ValidSort stableSort := fun l =>
  ⟨List.perm_insertionSort distLE l, List.sorted_insertionSort distLE l⟩

theorem validSort_swapSort : ValidSort swapSort := fun l =>
  ⟨(List.perm_insertionSort distLE l.reverse).trans (List.reverse_perm l),
   List.sorted_insertionSort distLE l.reverse⟩

/- ### Data model (src/models.py) -/

inductive Step where
  | nama_usaha | pic | status_pic | hpwa | jenis_usaha
  | internet | kecepatan | biaya | voc | location | photo | complete
  deriving DecidableEq, Repr

/-- Position of a step in the fixed forward order of the form.  The
value complete appears only in the membership test of photo_handler and
is never assigned; it sits after photo. -/
def Step.idx : Step → Nat
  | .nama_usaha => 0
  | .pic => 1
  | .status_pic => 2
  | .hpwa => 3
  | .jenis_usaha => 4
  | .internet => 5
  | .kecepatan => 6
  | .biaya => 7
  | .voc => 8
  | .location => 9
  | .photo => 10
  | .complete => 11

def JENIS_USAHA : List String :=
  ["Hotel", "Manufaktur", "Cafe", "Tempat Wisata",
   "Rumah Sakit", "Sekolah", "Industri", "Distributor", "Pergudangan"]

def INTERNET_OPTIONS : List String :=
  ["IndiHome", "Indibiz", "Biznet", "First Media",
   "MNC Play", "MyRepublic", "Oxygen", "CBN",
   "XL Home", "Indosat GIG", "Iconnet", "ISP Lokal"]

def KECEPATAN_OPTIONS : List String :=
  ["10-50 Mbps", "50-75 Mbps", "75-100 Mbps", ">100 Mbps"]

def BIAYA_OPTIONS : List String :=
  ["<200.000", "200.000-300.000",
   "300.000-400.000", "400.000-700.000", ">700.000"]

structure Credentials where
  nama_sa : String
  witel : String
  telda : String
  cluster : String
  deriving DecidableEq, Repr

/-- The complete-ODP-information dictionary attached to a session; keys
in insertion order, values possibly None. -/
def OdpInfoDict : Type := List (String × Option String)

instance : DecidableEq OdpInfoDict :=
  inferInstanceAs (DecidableEq (List (String × Option String)))

/-- Python dict get with default None, on a value that is itself
optional. -/
def oget (info : OdpInfoDict) (k : String) : Option String :=
  match info.lookup k with
  | some v => v
  | none => none

/-- models.UserData: the mutable per-session record. -/
structure UserData where
  user_id : String
  nama_sa : String
  witel : String
  telda : String
  cluster : String
  step : Step
  sto : Option String
  odp : Option String
  nama_usaha : Option String
  pic : Option String
  status_pic : Option String
  hpwa : Option String
  jenis_usaha : Option String
  internet : Option String
  kecepatan : Option String
  biaya : Option String
  voc : Option String
  location : Option String
  link_gmaps : Option String
  file_link : Option String
  odp_info : Option (List (String × Option String))
  deriving DecidableEq, Repr

/-- models.UserData.__init__. -/
def UserData.init (uid : String) (c : Credentials) : UserData :=
  { user_id := uid, nama_sa := c.nama_sa, witel := c.witel,
    telda := c.telda, cluster := c.cluster, step := Step.nama_usaha,
    sto := none, odp := none, nama_usaha := none, pic := none,
    status_pic := none, hpwa := none, jenis_usaha := none,
    internet := none, kecepatan := none, biaya := none, voc := none,
    location := none, link_gmaps := none, file_link := none,
    odp_info := none }

/-- The dictionary handed to save_to_spreadsheet. -/
structure Record where
  user_id : String
  nama_sa : String
  witel : String
  telda : String
  cluster : String
  sto : Option String
  odp : Option String
  nama_usaha : Option String
  pic : Option String
  status_pic : Option String
  hpwa : Option String
  jenis_usaha : Option String
  internet : Option String
  kecepatan : Option String
  biaya : Option String
  voc : Option String
  location : Option String
  link_gmaps : Option String
  file_link : Option String
  odp_extra : List (String × Option String)
  deriving DecidableEq, Repr

def excludedOdpFields : List String :=
  ["LATITUDE", "LONGITUDE", "AVAI", "DISTANCE_KM"]

/-- models.UserData.to_dict: the base fields plus the odp_info entries
outside the excluded set, prefixed and lowercased. -/
def UserData.to_dict (d : UserData) : Record :=
  { user_id := d.user_id, nama_sa := d.nama_sa, witel := d.witel,
    telda := d.telda, cluster := d.cluster, sto := d.sto, odp := d.odp,
    nama_usaha := d.nama_usaha, pic := d.pic, status_pic := d.status_pic,
    hpwa := d.hpwa, jenis_usaha := d.jenis_usaha, internet := d.internet,
    kecepatan := d.kecepatan, biaya := d.biaya, voc := d.voc,
    location := d.location, link_gmaps := d.link_gmaps,
    file_link := d.file_link,
    odp_extra :=
      match d.odp_info with
      | none => []
      | some info =>
        (info.filter fun kv => ¬ excludedOdpFields.contains kv.1).map
          fun kv => ("odp_" ++ kv.1.toLower, kv.2) }

/- ### The three module-level stores of src/handlers.py -/

structure BotState where
  user_data : String → Option UserData
  user_state : String → Option String
  odp_user_state : String → Option Bool

def setData (st : BotState) (uid : String) (v : Option UserData) : BotState :=
  { st with user_data := fun u => if u = uid then v else st.user_data u }

def setState (st : BotState) (uid : String) (v : String) : BotState :=
  { st with user_state := fun u => if u = uid then some v else st.user_state u }

def setFlag (st : BotState) (uid : String) (v : Bool) : BotState :=
  { st with odp_user_state := fun u => if u = uid then some v else st.odp_user_state u }

/- ### Observable effects of one handler run -/

inductive Effect where
  | reply (text : String)
  | edit (text : String)
  | replyLocationReceived (odpInfo : Option (List (String × Option String)))
  | odpNearest (lat lon : ℚ)
  | saveCall (rec : Record)
  | replySummary (rec : Record)
  | channelMessage (rec : Record)
  | recordsReply
  deriving DecidableEq, Repr

/-- Result of one handler invocation: the new store state, the emitted
effects in order, and whether the handler body raised an uncaught
exception (which telethon logs without affecting other handlers). -/
structure HOut where
  st : BotState
  effs : List Effect
  raised : Bool

/- ### The handlers (src/handlers.py) -/

/-- start_handler.  The welcome f-string in
utils.format_welcome_message reads credentials["sto"], a key the
modular credential lookup (models.UserCredentials.to_dict) never
provides, so the registered branch raises KeyError after the state
write and before the reply is sent. -/
def start_handler (st : BotState) (uid : String) (creds : Option Credentials) : HOut :=
  let st1 := setState st uid "started"
  match creds with
  | none => ⟨st1, [Effect.reply "❌ Anda tidak terdaftar dalam sistem. Hubungi admin."], false⟩
  | some _ => ⟨st1, [], true⟩

def add_handler (st : BotState) (uid : String) (creds : Option Credentials) : HOut :=
  if st.user_state uid ≠ some "started" then
    ⟨st, [Effect.reply "Silakan ketik /start terlebih dahulu."], false⟩
  else
    match creds with
    | none => ⟨st, [Effect.reply "❌ Anda tidak terdaftar dalam sistem. Hubungi admin."], false⟩
    | some c =>
      ⟨setState (setData st uid (some (UserData.init uid c))) uid "adding",
       [Effect.reply "📝 **Masukkan Nama Usaha:**"], false⟩

def record_handler (st : BotState) (uid : String) : HOut :=
  if st.user_state uid ≠ some "started" then
    ⟨st, [Effect.reply "Silakan ketik /start terlebih dahulu."], false⟩
  else
    ⟨st, [Effect.recordsReply], false⟩

def odp_handler (st : BotState) (uid : String) (isPrivate : Bool) : HOut :=
  if isPrivate then
    ⟨setFlag st uid true,
     [Effect.reply "Silakan kirim link Google Maps atau share lokasi Anda untuk mencari ODP terdekat."],
     false⟩
  else ⟨st, [], false⟩

def message_handler (st : BotState) (uid : String) (text : String) : HOut :=
  match st.user_state uid with
  | none => ⟨st, [Effect.reply "Silakan ketik /start terlebih dahulu."], false⟩
  | some s =>
    if s ≠ "adding" then ⟨st, [], false⟩
    else if text ≠ "" ∧ strStarts "/" text then ⟨st, [], false⟩
    else
      match st.user_data uid with
      | none => ⟨st, [], false⟩
      | some d =>
        match d.step with
        | Step.nama_usaha =>
          ⟨setData st uid (some { d with nama_usaha := some text, step := Step.pic }),
           [Effect.reply "👤 **Masukkan Nama PIC:**"], false⟩
        | Step.pic =>
          ⟨setData st uid (some { d with pic := some text, step := Step.status_pic }),
           [Effect.reply "🪪 **Masukkan status PIC:**"], false⟩
        | Step.status_pic =>
          ⟨setData st uid (some { d with status_pic := some text, step := Step.hpwa }),
           [Effect.reply "📱 **Masukkan Nomor HP/WA:**"], false⟩
        | Step.hpwa =>
          ⟨setData st uid (some { d with hpwa := some text, step := Step.jenis_usaha }),
           [Effect.reply "🏭 **Pilih Jenis Usaha:**"], false⟩
        | Step.voc =>
          ⟨setData st uid (some { d with voc := some text, step := Step.location }),
           [Effect.reply "📍 **Kirim Link Google Maps atau share lokasi Anda:**"], false⟩
        | _ => ⟨st, [], false⟩

/-- jenis_handler: when any session exists for the user, the step is
set to internet without checking the current step; an out-of-range
index raises before any mutation. -/
def jenis_handler (st : BotState) (uid : String) (index : Nat) : HOut :=
  match st.user_data uid with
  | none => ⟨st, [], false⟩
  | some d =>
    match JENIS_USAHA.get? index with
    | none => ⟨st, [], true⟩
    | some v =>
      ⟨setData st uid (some { d with jenis_usaha := some v, step := Step.internet }),
       [Effect.edit "🌐 **Pilih Internet Existing:**"], false⟩

def internet_handler (st : BotState) (uid : String) (index : Nat) : HOut :=
  match st.user_data uid with
  | none => ⟨st, [], false⟩
  | some d =>
    match INTERNET_OPTIONS.get? index with
    | none => ⟨st, [], true⟩
    | some v =>
      ⟨setData st uid (some { d with internet := some v, step := Step.kecepatan }),
       [Effect.edit "⚡ **Pilih Kecepatan Internet:**"], false⟩

def kecepatan_handler (st : BotState) (uid : String) (index : Nat) : HOut :=
  match st.user_data uid with
  | none => ⟨st, [], false⟩
  | some d =>
    match KECEPATAN_OPTIONS.get? index with
    | none => ⟨st, [], true⟩
    | some v =>
      ⟨setData st uid (some { d with kecepatan := some v, step := Step.biaya }),
       [Effect.edit "💰 **Pilih Range Biaya Internet:**"], false⟩

def biaya_handler (st : BotState) (uid : String) (index : Nat) : HOut :=
  match st.user_data uid with
  | none => ⟨st, [], false⟩
  | some d =>
    match BIAYA_OPTIONS.get? index with
    | none => ⟨st, [], true⟩
    | some v =>
      ⟨setData st uid (some { d with biaya := some v, step := Step.voc }),
       [Effect.edit "💬 **Masukkan Voice of Customer (VOC):**"], false⟩

/-- f-string rendering of a float pair; the exact float formatting is
presentation-level, any injective rendering of the pair serves the
claims. -/
def qStr (lat lon : ℚ) : String := toString lat ++ "," ++ toString lon

def gmapsUrl (lat lon : ℚ) : String :=
  "https://www.google.com/maps?q=" ++ toString lat ++ "," ++ toString lon

/-- handlers.location_handler.  The odpInfo oracle stands for the
get_complete_odp_info collaborator call (None when detection failed). -/
def location_handler (st : BotState) (uid : String) (lat lon : ℚ)
    (odpInfo : Option (List (String × Option String))) : HOut :=
  if (st.odp_user_state uid).getD false then
    ⟨setFlag st uid false, [Effect.odpNearest lat lon], false⟩
  else
    match st.user_data uid with
    | none => ⟨st, [], false⟩
    | some d =>
      if d.step ≠ Step.location then ⟨st, [], false⟩
      else
        let d1 := { d with location := some (qStr lat lon),
                           link_gmaps := some (gmapsUrl lat lon) }
        match odpInfo with
        | some info =>
          ⟨setData st uid (some { d1 with odp_info := some info,
                                          sto := oget info "STO",
                                          odp := oget info "ODP",
                                          step := Step.photo }),
           [Effect.replyLocationReceived (some info)], false⟩
        | none =>
          ⟨setData st uid (some { d1 with step := Step.photo }),
           [Effect.replyLocationReceived none], false⟩

/-- map(float, coords.split(",")) unpacked into two values; none models
the raised ValueError. -/
def splitFloats (coords : String) : Option (ℚ × ℚ) :=
  match coords.splitOn "," with
  | [a, b] =>
    match pyFloat? a, pyFloat? b with
    | some x, some y => some (x, y)
    | _, _ => none
  | _ => none

/-- handlers.gmaps_handler.  In the ODP branch the line
coords_tuple = extract_coords_from_gmaps_link(...) binds a string of
the form lat,lng, and the following line unpacks it as two variables:
iterating the string yields one value per character, so any extracted
coordinate string (length at least seven) raises ValueError before
process_odp_nearest runs and before the flag is cleared; even a
two-character string would then fail the float format specifier inside
process_odp_nearest.  The raised flag models that uncaught error. -/
def gmaps_handler (st : BotState) (uid : String) (text : String)
    (net : NetResult) (odpInfo : Option (List (String × Option String))) : HOut :=
  if (st.odp_user_state uid).getD false then
    match (extract_coords_from_gmaps_link (pyStrip text) net).result with
    | some _ => ⟨st, [], true⟩
    | none =>
      ⟨st, [Effect.reply "❌ Gagal mengekstrak koordinat dari link. Kirim ulang lokasi Anda."], false⟩
  else
    match st.user_data uid with
    | none => ⟨st, [], false⟩
    | some d =>
      if d.step ≠ Step.location then ⟨st, [], false⟩
      else
        let d1 := { d with link_gmaps := some text }
        match (extract_coords_from_gmaps_link text net).result with
        | some coords =>
          let d2 := { d1 with location := some coords }
          match splitFloats coords with
          | some _ =>
            match odpInfo with
            | some info =>
              ⟨setData st uid (some { d2 with odp_info := some info,
                                              sto := oget info "STO",
                                              odp := oget info "ODP",
                                              step := Step.photo }),
               [Effect.replyLocationReceived (some info)], false⟩
            | none =>
              ⟨setData st uid (some { d2 with step := Step.photo }),
               [Effect.replyLocationReceived none], false⟩
          | none =>
            ⟨setData st uid (some { d2 with step := Step.photo }),
             [Effect.replyLocationReceived none], false⟩
        | none =>
          ⟨setData st uid (some d1),
           [Effect.reply "❌ Gagal mengekstrak koordinat dari link. Kirim ulang lokasi Anda."], false⟩

/- ### Photo finalization (src/handlers.py photo_handler, src/storage.py) -/

inductive UploadOutcome where
  | apiOk (url : String)
  | noClient
  | apiFalsy
  | exn
  deriving DecidableEq, Repr

/-- SupabaseStorageManager.upload_file: always returns a string; every
failure mode degrades to a fixed placeholder text. -/
def upload_file : UploadOutcome → String
  | UploadOutcome.noClient => "Foto tersimpan (tanpa upload)"
  | UploadOutcome.apiOk url => url
  | UploadOutcome.apiFalsy => "Foto tersimpan (gagal upload)"
  | UploadOutcome.exn => "Foto tersimpan (error sistem)"

def isUploadFailure : UploadOutcome → Bool
  | UploadOutcome.apiOk _ => false
  | _ => true

/-- Outcome of the try block of photo_handler: either the download,
upload and file removal all complete, or download_media raises (the
except branch sets only the local variable, leaving the session field
untouched), or os.remove raises after the field was already assigned. -/
inductive PhotoOutcome where
  | ok (upload : UploadOutcome)
  | downloadFail
  | removeFail (upload : UploadOutcome)
  deriving DecidableEq, Repr

/-- handlers.photo_handler: finalization.  Whatever the save result,
the user state is reset to started and the session is deleted. -/
def photo_handler (st : BotState) (uid : String) (pout : PhotoOutcome)
    (saveOk : Bool) : HOut :=
  match st.user_data uid with
  | none => ⟨st, [], false⟩
  | some d =>
    if ¬ (d.step = Step.photo ∨ d.step = Step.complete) then ⟨st, [], false⟩
    else
      let d1 := match pout with
        | PhotoOutcome.ok u => { d with file_link := some (upload_file u) }
        | PhotoOutcome.removeFail u => { d with file_link := some (upload_file u) }
        | PhotoOutcome.downloadFail => d
      let recd := d1.to_dict
      let effs := if saveOk then
          [Effect.saveCall recd, Effect.replySummary recd, Effect.channelMessage recd]
        else
          [Effect.saveCall recd, Effect.reply "❌ Gagal menyimpan data ke spreadsheet"]
      ⟨setData (setState st uid "started") uid none, effs, false⟩

/- ### Event dispatch

telethon dispatches one inbound message to every registered handler
whose filter matches, sequentially in registration order, isolating an
exception raised in one handler from the others. -/

structure InMsg where
  text : String
  geo : Option (ℚ × ℚ)
  photo : Bool
  isPrivate : Bool

structure Oracle where
  creds : Option Credentials
  net : NetResult
  odpInfo : Option (List (String × Option String))
  photoOutcome : PhotoOutcome
  saveOk : Bool

def isMapsText (t : String) : Bool :=
  strContains "maps.google.com" t || strContains "goo.gl/maps" t ||
    strContains "maps.app.goo.gl" t

def seqH (a : HOut) (f : BotState → HOut) : HOut :=
  let b := f a.st
  ⟨b.st, a.effs ++ b.effs, a.raised || b.raised⟩

/-- One inbound NewMessage event run through the handler chain in
registration order: the four command handlers (whose patterns are
re.match, i.e. prefix tests), the free-text collector, the geo handler,
the maps-link handler and the photo handler. -/
def dispatch_msg (st : BotState) (uid : String) (m : InMsg) (o : Oracle) : HOut :=
  let h0 : HOut := ⟨st, [], false⟩
  let h1 := if strStarts "/start" m.text then seqH h0 (fun s => start_handler s uid o.creds) else h0
  let h2 := if strStarts "/add" m.text then seqH h1 (fun s => add_handler s uid o.creds) else h1
  let h3 := if strStarts "/record" m.text then seqH h2 (fun s => record_handler s uid) else h2
  let h4 := if strStarts "/odp" m.text then seqH h3 (fun s => odp_handler s uid m.isPrivate) else h3
  let h5 := seqH h4 (fun s => message_handler s uid m.text)
  let h6 := match m.geo with
    | some (la, lo) => seqH h5 (fun s => location_handler s uid la lo o.odpInfo)
    | none => h5
  let h7 := if isMapsText m.text then seqH h6 (fun s => gmaps_handler s uid m.text o.net o.odpInfo) else h6
  let h8 := if m.photo then seqH h7 (fun s => photo_handler s uid o.photoOutcome o.saveOk) else h7
  h8

inductive CbKind where
  | jenis | internet | kecepatan | biaya
  deriving DecidableEq, Repr

/-- One inbound CallbackQuery event: exactly one button handler fires. -/
def dispatch_callback (st : BotState) (uid : String) (k : CbKind) (index : Nat) : HOut :=
  match k with
  | CbKind.jenis => jenis_handler st uid index
  | CbKind.internet => internet_handler st uid index
  | CbKind.kecepatan => kecepatan_handler st uid index
  | CbKind.biaya => biaya_handler st uid index

/- ### Helper lemmas for the nearest-search claims -/

lemma find_nearest_some (sortv : List ORow → List ORow)
    (geod : ℚ × ℚ → ℚ × ℚ → ℚ) (data : Option (List (List String)))
    (uLat uLon : ℚ) (limit : Nat) (l : List ORow)
    (h : find_nearest_odp sortv geod data uLat uLon limit = some l) :
    ∃ df rows, get_odp_dataframe data = some df ∧
      requiredCols.all (fun c => df.header.contains c) = true ∧
      astypeRows df.header (uLat, uLon) geod (eligibleRaw df) = some rows ∧
      l = (sortv rows).take limit := by
  unfold find_nearest_odp at h
  cases hdf : get_odp_dataframe data with
  | none => rw [hdf] at h; exact absurd h (by simp)
  | some df =>
    rw [hdf] at h
    dsimp only at h
    by_cases hcols : requiredCols.all (fun c => df.header.contains c) = true
    · rw [if_pos hcols] at h
      cases hast : astypeRows df.header (uLat, uLon) geod (eligibleRaw df) with
      | none => rw [hast] at h; exact absurd h (by simp)
      | some rows =>
        rw [hast] at h
        exact ⟨df, rows, rfl, hcols, hast, (Option.some_injective _ h).symm⟩
    · rw [if_neg hcols] at h; exact absurd h (by simp)

lemma astypeRows_none (header : List String) (u : ℚ × ℚ)
    (geod : ℚ × ℚ → ℚ × ℚ → ℚ) (rows : List (List String)) (r : List String)
    (hr : r ∈ rows) (hfail : parseRow header u geod r = none) :
    astypeRows header u geod rows = none := by
  induction rows with
  | nil => cases hr
  | cons a as ih =>
    rcases List.mem_cons.mp hr with h1 | h1
    · subst h1
      unfold astypeRows
      rw [hfail]
    · unfold astypeRows
      rw [ih h1]
      cases parseRow header u geod a <;> rfl

/- ### Demo reference sets used by witnesses and counterexamples -/

/-- A distance function with no rational arithmetic: the distance of a
point is its latitude; used to instantiate the abstract geodesic
collaborator on demo data. -/
def latGeod : ℚ × ℚ → ℚ × ℚ → ℚ := fun _ v => v.1

/-- The all-ties distance function. -/
def constGeod : ℚ × ℚ → ℚ × ℚ → ℚ := fun _ _ => 0

def odpHeader : List String := ["STO", "ODP", "LATITUDE", "LONGITUDE"]

def demoSheet3 : Option (List (List String)) :=
  some [odpHeader,
        ["S", "O1", "1.0", "0.0"],
        ["S", "O2", "3.0", "0.0"],
        ["S", "O3", "2.0", "0.0"]]

def demoRow1 : ORow := ⟨"S", "O1", 1, 0, some "N/A", 1⟩
def demoRow3 : ORow := ⟨"S", "O3", 2, 0, some "N/A", 2⟩

def tieSheet : Option (List (List String)) :=
  some [odpHeader, ["S", "O1", "1.0", "2.0"], ["S", "O2", "1.0", "2.0"]]

def tieA : ORow := ⟨"S", "O1", 1, 2, some "N/A", 0⟩
def tieB : ORow := ⟨"S", "O2", 1, 2, some "N/A", 0⟩

def badSheet : Option (List (List String)) :=
  some [odpHeader, ["A", "ODP-A", "0.0", "0.0"], ["B", "ODP-B", "abc", "3.0"]]

def goodSheet : Option (List (List String)) :=
  some [odpHeader, ["A", "ODP-A", "0.0", "0.0"]]

def goodRow : ORow := ⟨"A", "ODP-A", 0, 0, some "N/A", 0⟩

/- ### Claims C2, C4, C6 -/

/-- C2, amended.  For every sort behavior satisfying the sort_values
contract, find_nearest_odp returns at most limit rows, in ascending
distance order, all drawn from the eligible converted rows, and when
the result is nonempty its first row attains the minimum distance over
all eligible rows.  The tie-order part of the original claim is
refuted separately: the default quicksort of sort_values is not stable,
so the order among equal distances is not the original input order. -/
theorem claim_C2 :
    ∀ sortv geod data uLat uLon limit l,
      ValidSort sortv →
      find_nearest_odp sortv geod data uLat uLon limit = some l →
      l.length ≤ limit ∧ List.Sorted distLE l ∧
      ∃ df rows, get_odp_dataframe data = some df ∧
        astypeRows df.header (uLat, uLon) geod (eligibleRaw df) = some rows ∧
        (∀ r, r ∈ l → r ∈ rows) ∧
        ∀ h t, l = h :: t → h ∈ rows ∧ ∀ r, r ∈ rows → h.dist ≤ r.dist := by
  intro sortv geod data uLat uLon limit l hv hfind
  obtain ⟨df, rows, hdf, hcols, hast, hl⟩ := find_nearest_some _ _ _ _ _ _ _ hfind
  obtain ⟨hperm, hsort⟩ := hv rows
  subst hl
  refine ⟨?_, ?_, df, rows, hdf, hast, ?_, ?_⟩
  · rw [List.length_take]; exact min_le_left _ _
  · exact List.Pairwise.sublist (List.take_sublist _ _) hsort
  · intro r hr; exact hperm.subset (List.take_subset _ _ hr)
  · intro h t hht
    cases hsr : sortv rows with
    | nil => rw [hsr] at hht; simp at hht
    | cons h0 rest =>
      cases limit with
      | zero => simp at hht
      | succ n =>
        rw [hsr] at hht
        simp only [List.take, List.cons.injEq] at hht
        obtain ⟨hh0, _⟩ := hht
        subst hh0
        constructor
        · exact hperm.subset (by rw [hsr]; exact List.mem_cons_self _ _)
        · intro r hr
          have hmem : r ∈ sortv rows := hperm.symm.subset hr
          rw [hsr] at hmem
          rcases List.mem_cons.mp hmem with h1 | h1
          · rw [h1]
          · exact List.rel_of_sorted_cons (by rw [hsr] at hsort; exact hsort) r h1

/-- Witness for C2: the spec example of three rows and k = 2, under the
stable sort instance of the contract. -/
theorem claim_C2_witness :
    ValidSort stableSort ∧
    find_nearest_odp stableSort latGeod demoSheet3 0 0 2 = some [demoRow1, demoRow3] ∧
    [demoRow1, demoRow3].length ≤ 2 ∧ List.Sorted distLE [demoRow1, demoRow3] := by
  have h := claim_C2 stableSort latGeod demoSheet3 0 0 2 [demoRow1, demoRow3]
    validSort_stableSort (by decide)
  exact ⟨validSort_stableSort, by decide, h.1, h.2.1⟩

/-- Counterexample for C2 as stated: the sort_values contract admits a
valid (permutation, ascending) behavior under which two rows at equal
distance come back in the reverse of their input order, while the claim
demands the stable input order; so tie order by original input rank is
not guaranteed by the code. -/
theorem claim_C2_counterexample :
    ValidSort swapSort ∧
    astypeRows odpHeader (0, 0) constGeod
      (eligibleRaw ⟨odpHeader, [["S", "O1", "1.0", "2.0"], ["S", "O2", "1.0", "2.0"]]⟩)
      = some [tieA, tieB] ∧
    find_nearest_odp swapSort constGeod tieSheet 0 0 5 = some [tieB, tieA] ∧
    (stableSort [tieA, tieB]).take 5 = [tieA, tieB] ∧
    tieA ≠ tieB :=
  ⟨validSort_swapSort, by decide, by decide, by decide, by decide⟩

/-- C4, amended.  A row with a missing (null) mandatory cell is dropped
by the filter and the query still succeeds over the remaining rows; but
a row whose coordinate cell is present and unparseable makes the whole
astype conversion raise, and the query returns the unavailable marker
None instead of ranking the remaining eligible rows. -/
theorem claim_C4 :
    (∀ df r, r ∈ df.rows →
      ((cell df.header r "STO").isSome = false ∨
       (cell df.header r "ODP").isSome = false ∨
       (cell df.header r "LATITUDE").isSome = false ∨
       (cell df.header r "LONGITUDE").isSome = false) →
      r ∉ eligibleRaw df) ∧
    (∀ sortv geod data uLat uLon limit df rows,
      get_odp_dataframe data = some df →
      requiredCols.all (fun c => df.header.contains c) = true →
      astypeRows df.header (uLat, uLon) geod (eligibleRaw df) = some rows →
      find_nearest_odp sortv geod data uLat uLon limit = some ((sortv rows).take limit)) ∧
    (∀ sortv geod data uLat uLon limit df r,
      get_odp_dataframe data = some df →
      r ∈ eligibleRaw df →
      parseRow df.header (uLat, uLon) geod r = none →
      find_nearest_odp sortv geod data uLat uLon limit = none) := by
  refine ⟨?_, ?_, ?_⟩
  · intro df r hr hmiss hel
    have hf := (List.mem_filter.mp hel).2
    simp only [requiredCols, List.all, Bool.and_eq_true] at hf
    rcases hmiss with h | h | h | h <;> simp [h] at hf
  · intro sortv geod data uLat uLon limit df rows hdf hcols hast
    unfold find_nearest_odp
    rw [hdf]
    dsimp only
    rw [if_pos hcols, hast]
  · intro sortv geod data uLat uLon limit df r hdf hel hfail
    unfold find_nearest_odp
    rw [hdf]
    dsimp only
    by_cases hcols : requiredCols.all (fun c => df.header.contains c) = true
    · rw [if_pos hcols, astypeRows_none _ _ _ _ _ hel hfail]
    · rw [if_neg hcols]

/-- Witness for C4: a sheet where one row lacks the coordinate cells is
still ranked (the bad row silently dropped), and a sheet with an
unparseable latitude makes the whole query return None. -/
theorem claim_C4_witness :
    (["A"] ∉ eligibleRaw ⟨odpHeader, [["A"], ["A", "ODP-A", "0.0", "0.0"]]⟩) ∧
    find_nearest_odp stableSort constGeod
      (some [odpHeader, ["A"], ["A", "ODP-A", "0.0", "0.0"]]) 0 0 5
      = some ((stableSort [goodRow]).take 5) ∧
    find_nearest_odp stableSort constGeod badSheet 0 0 5 = none := by
  refine ⟨?_, ?_, ?_⟩
  · exact claim_C4.1 ⟨odpHeader, [["A"], ["A", "ODP-A", "0.0", "0.0"]]⟩ ["A"]
      (by decide) (by decide)
  · exact claim_C4.2.1 stableSort constGeod _ 0 0 5 ⟨odpHeader, [["A"], ["A", "ODP-A", "0.0", "0.0"]]⟩
      [goodRow] (by decide) (by decide) (by decide)
  · exact claim_C4.2.2 stableSort constGeod badSheet 0 0 5
      ⟨odpHeader, [["A", "ODP-A", "0.0", "0.0"], ["B", "ODP-B", "abc", "3.0"]]⟩
      ["B", "ODP-B", "abc", "3.0"] (by decide) (by decide) (by decide)

/-- Counterexample for C4 as stated: the presence of a row with an
unparseable latitude makes the whole query fail (returns the
unavailable marker None), instead of excluding just that row: the same
data without the bad row returns the remaining row. -/
theorem claim_C4_counterexample :
    find_nearest_odp stableSort constGeod badSheet 0 0 5 = none ∧
    find_nearest_odp stableSort constGeod goodSheet 0 0 5 = some [goodRow] :=
  ⟨by decide, by decide⟩

/-- C6, amended.  A loaded reference set with at least one raw row but
zero eligible rows after filtering yields the empty-result reply, which
is a different constructor from the unavailable reply; but an entirely
empty reference set (no grid, an empty grid, or a header-only grid)
yields the same unavailable reply as a load failure, so those two are
not distinguishable. -/
theorem claim_C6 :
    (∀ sortv geod data uLat uLon df,
      ValidSort sortv →
      get_odp_dataframe data = some df →
      requiredCols.all (fun c => df.header.contains c) = true →
      eligibleRaw df = [] →
      process_odp_nearest_reply sortv geod data uLat uLon = OdpReply.emptyInvalid) ∧
    (OdpReply.emptyInvalid ≠ OdpReply.unavailable ∧
     ∀ l, OdpReply.results l ≠ OdpReply.unavailable ∧
          OdpReply.results l ≠ OdpReply.emptyInvalid) := by
  constructor
  · intro sortv geod data uLat uLon df hv hdf hcols hel
    have hempty : astypeRows df.header (uLat, uLon) geod (eligibleRaw df) = some [] := by
      rw [hel]; rfl
    have hsortnil : sortv [] = [] := (hv []).1.eq_nil
    have hfind : find_nearest_odp sortv geod data uLat uLon 5 = some [] := by
      unfold find_nearest_odp
      rw [hdf]
      dsimp only
      rw [if_pos hcols, hempty]
      dsimp only
      rw [hsortnil]
      rfl
    unfold process_odp_nearest_reply
    rw [hfind]
  · exact ⟨by simp, fun l => ⟨by simp, by simp⟩⟩

/-- Witness for C6: a sheet whose single data row lacks every mandatory
cell filters to zero eligible rows and is reported as empty-invalid. -/
theorem claim_C6_witness :
    process_odp_nearest_reply stableSort constGeod (some [odpHeader, ["A"]]) 0 0
      = OdpReply.emptyInvalid :=
  claim_C6.1 stableSort constGeod (some [odpHeader, ["A"]]) 0 0
    ⟨odpHeader, [["A"]]⟩ validSort_stableSort (by decide) (by decide) (by decide)

/-- Counterexample for C6 as stated: a reference set that is entirely
empty (header only) is reported with the same unavailable marker as a
failed load, not with a distinct empty-result marker. -/
theorem claim_C6_counterexample :
    process_odp_nearest_reply stableSort constGeod (some [odpHeader]) 0 0
      = OdpReply.unavailable ∧
    process_odp_nearest_reply stableSort constGeod none 0 0 = OdpReply.unavailable ∧
    process_odp_nearest_reply stableSort constGeod (some []) 0 0 = OdpReply.unavailable :=
  ⟨by decide, by decide, by decide⟩

/- ### Claims C3 and C7 -/

/-- C3.  The strategies are tried in order with the first success
winning.  An input containing a decimal pair after an at sign resolves
via strategy 1 without any network call and its groups denote
(-6.2, 106.816666); an input with a q= parameter pair resolves via
strategy 2 without any network call and its groups denote
(-6.914744, 107.609810). -/
theorem claim_C3 :
    (∀ net, extract_coords_from_gmaps_link "...@-6.200000,106.816666..." net =
      ⟨some "-6.200000,106.816666", 0, some 1⟩) ∧
    (∃ qlat qlng, decToRat "-6.200000" = some qlat ∧ decToRat "106.816666" = some qlng ∧
      qlat = -6.2 ∧ qlng = 106.816666) ∧
    (∀ net, extract_coords_from_gmaps_link "https://maps.google.com/?q=-6.914744,107.609810" net =
      ⟨some "-6.914744,107.609810", 0, some 2⟩) ∧
    (∃ qlat qlng, decToRat "-6.914744" = some qlat ∧ decToRat "107.609810" = some qlng ∧
      qlat = -6.914744 ∧ qlng = 107.60981) := by
  refine ⟨fun net => rfl, ?_, fun net => rfl, ?_⟩
  · exact ⟨mkRat (-62) 10, mkRat 106816666 1000000, by decide, by decide,
      by rw [Rat.mkRat_eq_div]; norm_num, by rw [Rat.mkRat_eq_div]; norm_num⟩
  · exact ⟨mkRat (-6914744) 1000000, mkRat 10760981 100000, by decide, by decide,
      by rw [Rat.mkRat_eq_div]; norm_num, by rw [Rat.mkRat_eq_div]; norm_num⟩

/-- C7.  Blank input fails immediately with no network call; the
resolver makes at most one network request on any input (no retry); and
when both in-string strategies fail and the network call raises, the
caught exception surfaces as the value none rather than an error. -/
theorem claim_C7 :
    (∀ link net, isBlank link = true →
      extract_coords_from_gmaps_link link net = ⟨none, 0, none⟩) ∧
    (∀ link net, (extract_coords_from_gmaps_link link net).networkCalls ≤ 1) ∧
    (∀ link, isBlank link = false →
      reSearch atPat link = none → reSearch qPat link = none →
      extract_coords_from_gmaps_link link NetResult.err = ⟨none, 1, none⟩) := by
  refine ⟨?_, ?_, ?_⟩
  · intro link net h
    unfold extract_coords_from_gmaps_link
    rw [if_pos h]
  · intro link net
    unfold extract_coords_from_gmaps_link
    repeat' split
    all_goals simp
  · intro link hb h1 h2
    unfold extract_coords_from_gmaps_link
    rw [if_neg (by rw [hb]; exact Bool.false_ne_true), h1, h2]

/-- Witness for C7 at concrete inputs: a whitespace-only input and a
plain unmatched input under a network failure. -/
theorem claim_C7_witness :
    extract_coords_from_gmaps_link "  " NetResult.err = ⟨none, 0, none⟩ ∧
    (extract_coords_from_gmaps_link "x" NetResult.err).networkCalls ≤ 1 ∧
    extract_coords_from_gmaps_link "x" NetResult.err = ⟨none, 1, none⟩ :=
  ⟨claim_C7.1 "  " NetResult.err (by decide),
   claim_C7.2.1 "x" NetResult.err,
   claim_C7.2.2 "x" (by decide) (by decide) (by decide)⟩

@[simp] lemma setData_data_same (st : BotState) (uid : String) (v : Option UserData) :
    (setData st uid v).user_data uid = v := by simp [setData]

@[simp] lemma setData_state (st : BotState) (uid : String) (v : Option UserData) :
    (setData st uid v).user_state = st.user_state := rfl

@[simp] lemma setData_flag (st : BotState) (uid : String) (v : Option UserData) :
    (setData st uid v).odp_user_state = st.odp_user_state := rfl

@[simp] lemma setState_state_same (st : BotState) (uid : String) (v : String) :
    (setState st uid v).user_state uid = some v := by simp [setState]

@[simp] lemma setState_data (st : BotState) (uid : String) (v : String) :
    (setState st uid v).user_data = st.user_data := rfl

@[simp] lemma setState_flag (st : BotState) (uid : String) (v : String) :
    (setState st uid v).odp_user_state = st.odp_user_state := rfl

@[simp] lemma setFlag_flag_same (st : BotState) (uid : String) (v : Bool) :
    (setFlag st uid v).odp_user_state uid = some v := by simp [setFlag]

@[simp] lemma setFlag_data (st : BotState) (uid : String) (v : Bool) :
    (setFlag st uid v).user_data = st.user_data := rfl

@[simp] lemma setFlag_state (st : BotState) (uid : String) (v : Bool) :
    (setFlag st uid v).user_state = st.user_state := rfl

/-- One event never creates a session for uid and never moves an
existing session to an earlier step. -/
def Evolves (uid : String) (st stp : BotState) : Prop :=
  ∀ dp, stp.user_data uid = some dp →
    ∃ d, st.user_data uid = some d ∧ d.step.idx ≤ dp.step.idx

lemma evolves_refl (uid : String) (st : BotState) : Evolves uid st st :=
  fun dp h => ⟨dp, h, le_rfl⟩

lemma evolves_trans {uid : String} {s1 s2 s3 : BotState}
    (h12 : Evolves uid s1 s2) (h23 : Evolves uid s2 s3) : Evolves uid s1 s3 := by
  intro dp h3
  obtain ⟨d2, h2, le2⟩ := h23 dp h3
  obtain ⟨d1, h1, le1⟩ := h12 d2 h2
  exact ⟨d1, h1, le_trans le1 le2⟩

lemma message_handler_evolves (st : BotState) (uid t : String) :
    Evolves uid st (message_handler st uid t).st := by
  intro dp hdp
  unfold message_handler at hdp
  cases hus : st.user_state uid with
  | none => rw [hus] at hdp; exact ⟨dp, hdp, le_rfl⟩
  | some s =>
    rw [hus] at hdp
    dsimp only at hdp
    by_cases hs : s ≠ "adding"
    · rw [if_pos hs] at hdp; exact ⟨dp, hdp, le_rfl⟩
    · rw [if_neg hs] at hdp
      by_cases hc : t ≠ "" ∧ strStarts "/" t
      · rw [if_pos hc] at hdp; exact ⟨dp, hdp, le_rfl⟩
      · rw [if_neg hc] at hdp
        cases hud : st.user_data uid with
        | none =>
          rw [hud] at hdp
          dsimp only at hdp
          rw [hud] at hdp
          exact Option.noConfusion hdp
        | some d =>
          rw [hud] at hdp
          dsimp only at hdp
          cases hstep : d.step <;> rw [hstep] at hdp <;> dsimp only at hdp <;>
            first
            | (simp only [setData_data_same, Option.some.injEq] at hdp
               exact ⟨d, rfl, by rw [← hdp]; try simp [hstep, Step.idx]⟩)
            | (rw [hud] at hdp
               simp only [Option.some.injEq] at hdp
               subst hdp
               exact ⟨d, rfl, le_rfl⟩)

lemma location_handler_evolves (st : BotState) (uid : String) (lat lon : ℚ)
    (info : Option (List (String × Option String))) :
    Evolves uid st (location_handler st uid lat lon info).st := by
  intro dp hdp
  unfold location_handler at hdp
  by_cases hflag : (st.odp_user_state uid).getD false = true
  · rw [if_pos hflag] at hdp
    dsimp only at hdp
    exact ⟨dp, hdp, le_rfl⟩
  · rw [if_neg hflag] at hdp
    cases hud : st.user_data uid with
    | none =>
      rw [hud] at hdp; dsimp only at hdp; rw [hud] at hdp
      exact Option.noConfusion hdp
    | some d =>
      rw [hud] at hdp
      dsimp only at hdp
      by_cases hstep : d.step ≠ Step.location
      · rw [if_pos hstep] at hdp
        dsimp only at hdp
        rw [hud] at hdp
        simp only [Option.some.injEq] at hdp
        subst hdp
        exact ⟨d, rfl, le_rfl⟩
      · rw [if_neg hstep] at hdp
        push_neg at hstep
        cases info with
        | some i =>
          simp only [setData_data_same, Option.some.injEq] at hdp
          exact ⟨d, rfl, by rw [← hdp]; try simp [hstep, Step.idx]⟩
        | none =>
          simp only [setData_data_same, Option.some.injEq] at hdp
          exact ⟨d, rfl, by rw [← hdp]; try simp [hstep, Step.idx]⟩

lemma gmaps_handler_evolves (st : BotState) (uid text : String) (net : NetResult)
    (info : Option (List (String × Option String))) :
    Evolves uid st (gmaps_handler st uid text net info).st := by
  intro dp hdp
  unfold gmaps_handler at hdp
  by_cases hflag : (st.odp_user_state uid).getD false = true
  · rw [if_pos hflag] at hdp
    cases hex : (extract_coords_from_gmaps_link (pyStrip text) net).result <;>
      rw [hex] at hdp <;> dsimp only at hdp <;> exact ⟨dp, hdp, le_rfl⟩
  · rw [if_neg hflag] at hdp
    cases hud : st.user_data uid with
    | none =>
      rw [hud] at hdp; dsimp only at hdp; rw [hud] at hdp
      exact Option.noConfusion hdp
    | some d =>
      rw [hud] at hdp
      dsimp only at hdp
      by_cases hstep : d.step ≠ Step.location
      · rw [if_pos hstep] at hdp
        dsimp only at hdp
        rw [hud] at hdp
        simp only [Option.some.injEq] at hdp
        subst hdp
        exact ⟨d, rfl, le_rfl⟩
      · rw [if_neg hstep] at hdp
        push_neg at hstep
        cases hex : (extract_coords_from_gmaps_link text net).result with
        | some coords =>
          rw [hex] at hdp
          dsimp only at hdp
          cases hsf : splitFloats coords with
          | some pq =>
            rw [hsf] at hdp
            dsimp only at hdp
            cases info with
            | some i =>
              simp only [setData_data_same, Option.some.injEq] at hdp
              exact ⟨d, rfl, by rw [← hdp]; try simp [hstep, Step.idx]⟩
            | none =>
              simp only [setData_data_same, Option.some.injEq] at hdp
              exact ⟨d, rfl, by rw [← hdp]; try simp [hstep, Step.idx]⟩
          | none =>
            rw [hsf] at hdp
            dsimp only at hdp
            simp only [setData_data_same, Option.some.injEq] at hdp
            exact ⟨d, rfl, by rw [← hdp]; try simp [hstep, Step.idx]⟩
        | none =>
          rw [hex] at hdp
          dsimp only at hdp
          simp only [setData_data_same, Option.some.injEq] at hdp
          exact ⟨d, rfl, by rw [← hdp]; try simp [hstep, Step.idx]⟩

lemma photo_handler_evolves (st : BotState) (uid : String) (pout : PhotoOutcome)
    (saveOk : Bool) :
    Evolves uid st (photo_handler st uid pout saveOk).st := by
  intro dp hdp
  unfold photo_handler at hdp
  cases hud : st.user_data uid with
  | none =>
    rw [hud] at hdp; dsimp only at hdp; rw [hud] at hdp
    exact Option.noConfusion hdp
  | some d =>
    rw [hud] at hdp
    dsimp only at hdp
    by_cases hstep : ¬ (d.step = Step.photo ∨ d.step = Step.complete)
    · rw [if_pos hstep] at hdp
      dsimp only at hdp
      rw [hud] at hdp
      simp only [Option.some.injEq] at hdp
      subst hdp
      exact ⟨d, rfl, le_rfl⟩
    · rw [if_neg hstep] at hdp
      simp only [setData_data_same] at hdp
      exact Option.noConfusion hdp

lemma strStarts_slash {cs : List Char} {t : String}
    (h : List.isPrefixOf ('/' :: cs) t.data = true) : strStarts "/" t = true := by
  unfold strStarts
  have hd : ("/" : String).data = ['/'] := rfl
  rw [hd]
  cases ht : t.data with
  | nil => rw [ht] at h; simp [List.isPrefixOf] at h
  | cons b bs =>
    rw [ht] at h
    simp only [List.isPrefixOf, Bool.and_eq_true] at h ⊢
    exact ⟨h.1, trivial⟩

lemma dispatch_msg_evolves (st : BotState) (uid : String) (m : InMsg) (o : Oracle)
    (hcmd : strStarts "/" m.text = false) :
    Evolves uid st (dispatch_msg st uid m o).st := by
  have hfalse : ∀ (p : String), p.data = '/' :: p.data.tail → strStarts p m.text = false := by
    intro p hp
    cases hc : strStarts p m.text with
    | false => rfl
    | true =>
      have : List.isPrefixOf ('/' :: p.data.tail) m.text.data = true := by
        rw [← hp]; exact hc
      rw [strStarts_slash this] at hcmd
      exact absurd hcmd (by decide)
  have h1 : strStarts "/start" m.text = false := hfalse "/start" rfl
  have h2 : strStarts "/add" m.text = false := hfalse "/add" rfl
  have h3 : strStarts "/record" m.text = false := hfalse "/record" rfl
  have h4 : strStarts "/odp" m.text = false := hfalse "/odp" rfl
  unfold dispatch_msg
  simp only [h1, h2, h3, h4, Bool.false_eq_true, if_false, seqH]
  cases hg : m.geo with
  | none =>
    by_cases hmaps : isMapsText m.text = true
    · rw [if_pos hmaps]
      by_cases hph : m.photo = true
      · rw [if_pos hph]
        exact evolves_trans
          (evolves_trans (message_handler_evolves _ _ _) (gmaps_handler_evolves _ _ _ _ _))
          (photo_handler_evolves _ _ _ _)
      · rw [if_neg hph]
        exact evolves_trans (message_handler_evolves _ _ _) (gmaps_handler_evolves _ _ _ _ _)
    · rw [if_neg hmaps]
      by_cases hph : m.photo = true
      · rw [if_pos hph]
        exact evolves_trans (message_handler_evolves _ _ _) (photo_handler_evolves _ _ _ _)
      · rw [if_neg hph]
        exact message_handler_evolves _ _ _
  | some p =>
    obtain ⟨la, lo⟩ := p
    by_cases hmaps : isMapsText m.text = true
    · rw [if_pos hmaps]
      by_cases hph : m.photo = true
      · rw [if_pos hph]
        exact evolves_trans
          (evolves_trans
            (evolves_trans (message_handler_evolves _ _ _) (location_handler_evolves _ _ _ _ _))
            (gmaps_handler_evolves _ _ _ _ _))
          (photo_handler_evolves _ _ _ _)
      · rw [if_neg hph]
        exact evolves_trans
          (evolves_trans (message_handler_evolves _ _ _) (location_handler_evolves _ _ _ _ _))
          (gmaps_handler_evolves _ _ _ _ _)
    · rw [if_neg hmaps]
      by_cases hph : m.photo = true
      · rw [if_pos hph]
        exact evolves_trans
          (evolves_trans (message_handler_evolves _ _ _) (location_handler_evolves _ _ _ _ _))
          (photo_handler_evolves _ _ _ _)
      · rw [if_neg hph]
        exact evolves_trans (message_handler_evolves _ _ _) (location_handler_evolves _ _ _ _ _)

def cbOptions : CbKind → List String
  | CbKind.jenis => JENIS_USAHA
  | CbKind.internet => INTERNET_OPTIONS
  | CbKind.kecepatan => KECEPATAN_OPTIONS
  | CbKind.biaya => BIAYA_OPTIONS

/-- The step each button handler writes, regardless of the current
step. -/
def cbTarget : CbKind → Step
  | CbKind.jenis => Step.internet
  | CbKind.internet => Step.kecepatan
  | CbKind.kecepatan => Step.biaya
  | CbKind.biaya => Step.voc

lemma dispatch_callback_sets (st : BotState) (uid : String) (k : CbKind) (i : Nat)
    (d : UserData) (hd : st.user_data uid = some d) (hi : i < (cbOptions k).length) :
    ∃ dp, (dispatch_callback st uid k i).st.user_data uid = some dp ∧
      dp.step = cbTarget k := by
  have hget : (cbOptions k).get? i = some ((cbOptions k).get ⟨i, hi⟩) :=
    List.get?_eq_get hi
  cases k
  all_goals (
    unfold dispatch_callback jenis_handler internet_handler kecepatan_handler biaya_handler
    rw [hd]
    dsimp only
    simp only [cbOptions] at hget
    rw [hget]
    dsimp only
    simp only [setData_data_same]
    exact ⟨_, rfl, rfl⟩)

/-- C1, amended.  Non-command message events (free text, live location,
map link, photo) never create a session and never move an existing
session's step cursor backwards; but each button-callback handler sets
the cursor unconditionally to the fixed successor of its own stage
whenever any session exists, regardless of the current step, so a
replayed callback can move the cursor backwards and re-enter a state
already passed. -/
theorem claim_C1 :
    (∀ st uid m o, strStarts "/" m.text = false →
      Evolves uid st (dispatch_msg st uid m o).st) ∧
    (∀ st uid k i d, st.user_data uid = some d → i < (cbOptions k).length →
      ∃ dp, (dispatch_callback st uid k i).st.user_data uid = some dp ∧
        dp.step = cbTarget k) :=
  ⟨fun st uid m o h => dispatch_msg_evolves st uid m o h,
   fun st uid k i d hd hi => dispatch_callback_sets st uid k i d hd hi⟩

def demoCreds : Credentials := ⟨"Agent", "W", "T", "C"⟩

def c1Session : UserData :=
  { UserData.init "7" demoCreds with
      step := Step.voc,
      nama_usaha := some "Toko Maju", pic := some "Budi",
      status_pic := some "Owner", hpwa := some "08123456789",
      jenis_usaha := some "Hotel", internet := some "IndiHome",
      kecepatan := some ">100 Mbps", biaya := some "<200.000" }

def c1State : BotState :=
  ⟨fun u => if u = "7" then some c1Session else none,
   fun u => if u = "7" then some "adding" else none,
   fun _ => none⟩

def c1Msg : InMsg := ⟨"halo", none, false, true⟩

def c1Oracle : Oracle := ⟨none, NetResult.err, none, PhotoOutcome.downloadFail, false⟩

/-- Witness for C1 at a concrete session, message and callback. -/
theorem claim_C1_witness :
    Evolves "7" c1State (dispatch_msg c1State "7" c1Msg c1Oracle).st ∧
    (∃ dp, (dispatch_callback c1State "7" CbKind.jenis 0).st.user_data "7" = some dp ∧
      dp.step = cbTarget CbKind.jenis) :=
  ⟨claim_C1.1 c1State "7" c1Msg c1Oracle rfl,
   claim_C1.2 c1State "7" CbKind.jenis 0 c1Session rfl (by decide)⟩

/-- Counterexample for C1 as stated: a session already at the VOC step
receives a (replayed) business-type button callback and its cursor
moves backwards from voc (index 8) to internet (index 5), re-entering a
state already passed. -/
theorem claim_C1_counterexample :
    c1State.user_data "7" = some c1Session ∧
    c1Session.step = Step.voc ∧
    (dispatch_callback c1State "7" CbKind.jenis 0).st.user_data "7" =
      some { c1Session with jenis_usaha := some "Hotel", step := Step.internet } ∧
    Step.idx Step.internet < Step.idx Step.voc :=
  ⟨rfl, rfl, by decide, by decide⟩

/-- C5.  Finalization at the photo step removes the session and resets
the per-user state even when the spreadsheet save fails, so an /add
immediately afterwards observes a fresh session at the first step. -/
theorem claim_C5 :
    ∀ st uid d pout c,
      st.user_data uid = some d → d.step = Step.photo →
      (photo_handler st uid pout false).st.user_data uid = none ∧
      (photo_handler st uid pout false).st.user_state uid = some "started" ∧
      (add_handler (photo_handler st uid pout false).st uid (some c)).st.user_data uid =
        some (UserData.init uid c) ∧
      (UserData.init uid c).step = Step.nama_usaha ∧
      (add_handler (photo_handler st uid pout false).st uid (some c)).st.user_state uid =
        some "adding" := by
  intro st uid d pout c hd hstep
  have hph : (photo_handler st uid pout false).st =
      setData (setState st uid "started") uid none := by
    unfold photo_handler
    rw [hd]
    dsimp only
    rw [if_neg (by simp [hstep])]
  have hadd : (add_handler (photo_handler st uid pout false).st uid (some c)) =
      ⟨setState (setData (photo_handler st uid pout false).st uid
          (some (UserData.init uid c))) uid "adding",
       [Effect.reply "📝 **Masukkan Nama Usaha:**"], false⟩ := by
    unfold add_handler
    rw [if_neg (by rw [hph]; simp)]
  refine ⟨by rw [hph]; simp, by rw [hph]; simp, ?_, rfl, ?_⟩
  · rw [hadd]; simp
  · rw [hadd]; simp

/-- C9.  Upload failure never blocks finalization: the record handed to
save_to_spreadsheet is still the first emitted call, its file reference
is the fixed placeholder string produced by upload_file, and every
other field of the record is the session field unchanged. -/
theorem claim_C9 :
    ∀ st uid d u saveOk,
      st.user_data uid = some d → d.step = Step.photo →
      isUploadFailure u = true →
      (photo_handler st uid (PhotoOutcome.ok u) saveOk).effs.head? =
        some (Effect.saveCall ({ d with file_link := some (upload_file u) }).to_dict) ∧
      ({ d with file_link := some (upload_file u) } : UserData).to_dict =
        { d.to_dict with file_link := some (upload_file u) } ∧
      (upload_file u = "Foto tersimpan (tanpa upload)" ∨
       upload_file u = "Foto tersimpan (gagal upload)" ∨
       upload_file u = "Foto tersimpan (error sistem)") := by
  intro st uid d u saveOk hd hstep hfail
  refine ⟨?_, rfl, ?_⟩
  · unfold photo_handler
    rw [hd]
    dsimp only
    rw [if_neg (by simp [hstep])]
    dsimp only
    cases saveOk <;> rfl
  · cases u with
    | apiOk url => exact absurd hfail (by simp [isUploadFailure])
    | noClient => exact Or.inl rfl
    | apiFalsy => exact Or.inr (Or.inl rfl)
    | exn => exact Or.inr (Or.inr rfl)

def c9Session : UserData :=
  { c1Session with step := Step.photo, voc := some "Baik", location := some "1,2" }

def c9State : BotState :=
  ⟨fun u => if u = "9" then some c9Session else none,
   fun u => if u = "9" then some "adding" else none,
   fun _ => none⟩

/-- Witness for C5: a concrete session finalized under save failure. -/
theorem claim_C5_witness :
    (photo_handler c9State "9" PhotoOutcome.downloadFail false).st.user_data "9" = none ∧
    (photo_handler c9State "9" PhotoOutcome.downloadFail false).st.user_state "9" =
      some "started" ∧
    (add_handler (photo_handler c9State "9" PhotoOutcome.downloadFail false).st "9"
        (some demoCreds)).st.user_data "9" = some (UserData.init "9" demoCreds) ∧
    (UserData.init "9" demoCreds).step = Step.nama_usaha ∧
    (add_handler (photo_handler c9State "9" PhotoOutcome.downloadFail false).st "9"
        (some demoCreds)).st.user_state "9" = some "adding" :=
  claim_C5 c9State "9" c9Session PhotoOutcome.downloadFail demoCreds rfl rfl

/-- Witness for C9: a concrete finalization whose upload raised. -/
theorem claim_C9_witness :
    (photo_handler c9State "9" (PhotoOutcome.ok UploadOutcome.exn) true).effs.head? =
      some (Effect.saveCall
        ({ c9Session with file_link := some (upload_file UploadOutcome.exn) }).to_dict) ∧
    ({ c9Session with file_link := some (upload_file UploadOutcome.exn) } : UserData).to_dict =
      { c9Session.to_dict with file_link := some (upload_file UploadOutcome.exn) } ∧
    (upload_file UploadOutcome.exn = "Foto tersimpan (tanpa upload)" ∨
     upload_file UploadOutcome.exn = "Foto tersimpan (gagal upload)" ∨
     upload_file UploadOutcome.exn = "Foto tersimpan (error sistem)") :=
  claim_C9 c9State "9" c9Session UploadOutcome.exn true rfl rfl rfl

/-- C8.  At the LOCATION step with no ODP flag set, a maps-link message
whose coordinate resolution fails leaves the session at LOCATION with
only the link text stored, changes no other store entry, re-issues the
re-prompt reply, and raises nothing; no retry cap exists because the
state is left unchanged. -/
theorem claim_C8 :
    ∀ st uid m o d,
      m.geo = none → m.photo = false → isMapsText m.text = true →
      strStarts "/" m.text = false →
      st.user_state uid = some "adding" →
      (st.odp_user_state uid).getD false = false →
      st.user_data uid = some d → d.step = Step.location →
      (extract_coords_from_gmaps_link m.text o.net).result = none →
      (dispatch_msg st uid m o).st.user_data uid =
        some { d with link_gmaps := some m.text } ∧
      ({ d with link_gmaps := some m.text } : UserData).step = Step.location ∧
      (dispatch_msg st uid m o).st.user_state = st.user_state ∧
      (dispatch_msg st uid m o).st.odp_user_state = st.odp_user_state ∧
      (dispatch_msg st uid m o).effs =
        [Effect.reply "❌ Gagal mengekstrak koordinat dari link. Kirim ulang lokasi Anda."] ∧
      (dispatch_msg st uid m o).raised = false := by
  intro st uid m o d hg hp hm hcmd hus hflag hud hstep hex
  have hmsg : message_handler st uid m.text = ⟨st, [], false⟩ := by
    unfold message_handler
    rw [hus]
    dsimp only
    rw [if_neg (by simp), if_neg (by simp [hcmd]), hud]
    dsimp only
    rw [hstep]
  have hgm : gmaps_handler st uid m.text o.net o.odpInfo =
      ⟨setData st uid (some { d with link_gmaps := some m.text }),
       [Effect.reply "❌ Gagal mengekstrak koordinat dari link. Kirim ulang lokasi Anda."],
       false⟩ := by
    unfold gmaps_handler
    rw [if_neg (by rw [hflag]; exact Bool.false_ne_true), hud]
    dsimp only
    rw [if_neg (by simp [hstep]), hex]
  have hfalse : ∀ (p : String), p.data = '/' :: p.data.tail → strStarts p m.text = false := by
    intro p hp2
    cases hc : strStarts p m.text with
    | false => rfl
    | true =>
      have : List.isPrefixOf ('/' :: p.data.tail) m.text.data = true := by
        rw [← hp2]; exact hc
      rw [strStarts_slash this] at hcmd
      exact absurd hcmd (by decide)
  have hd : dispatch_msg st uid m o =
      ⟨setData st uid (some { d with link_gmaps := some m.text }),
       [Effect.reply "❌ Gagal mengekstrak koordinat dari link. Kirim ulang lokasi Anda."],
       false⟩ := by
    unfold dispatch_msg
    rw [hfalse "/start" rfl, hfalse "/add" rfl, hfalse "/record" rfl, hfalse "/odp" rfl]
    simp only [Bool.false_eq_true, if_false, hg, hp, hm, if_true, seqH, hmsg, hgm]
    simp
  rw [hd]
  exact ⟨by simp, by simp [hstep], rfl, rfl, rfl, rfl⟩

def c8State : BotState :=
  ⟨fun u => if u = "8" then some { c1Session with step := Step.location } else none,
   fun u => if u = "8" then some "adding" else none,
   fun _ => none⟩

def c8Msg : InMsg := ⟨"https://maps.app.goo.gl/XYZ", none, false, true⟩

/-- Witness for C8: a concrete unresolvable shortlink at LOCATION under
a network error. -/
theorem claim_C8_witness :
    (dispatch_msg c8State "8" c8Msg c1Oracle).st.user_data "8" =
      some { { c1Session with step := Step.location } with
               link_gmaps := some c8Msg.text } ∧
    ({ { c1Session with step := Step.location } with
        link_gmaps := some c8Msg.text } : UserData).step = Step.location ∧
    (dispatch_msg c8State "8" c8Msg c1Oracle).st.user_state = c8State.user_state ∧
    (dispatch_msg c8State "8" c8Msg c1Oracle).st.odp_user_state = c8State.odp_user_state ∧
    (dispatch_msg c8State "8" c8Msg c1Oracle).effs =
      [Effect.reply "❌ Gagal mengekstrak koordinat dari link. Kirim ulang lokasi Anda."] ∧
    (dispatch_msg c8State "8" c8Msg c1Oracle).raised = false :=
  claim_C8 c8State "8" c8Msg c1Oracle { c1Session with step := Step.location }
    rfl rfl (by decide) (by decide) rfl rfl rfl rfl (by decide)

def c10Session : UserData := { c1Session with step := Step.location }

def c10State : BotState :=
  ⟨fun u => if u = "7" then some c10Session else none,
   fun u => if u = "7" then some "adding" else none,
   fun u => if u = "7" then some true else none⟩

def c10Link : String := "https://maps.google.com/?q=-6.914744,107.609810"

def c10Msg : InMsg := ⟨c10Link, none, false, true⟩

def c10Geo : InMsg := ⟨"", some (5, 6), false, true⟩

/-- C10, code evaluation at the failing input.  With the ODP flag set
and a main session at LOCATION, a maps-link event reaches the line
lat, lon = coords_tuple, which unpacks the extracted coordinate string
and raises ValueError: the handler dies with no reply and the flag
still set (first conjunct).  The live-location path shows the evident
intent: one lookup reply, flag cleared, session untouched (second
conjunct). -/
theorem claim_C10_code_eval :
    ((dispatch_msg c10State "7" c10Msg c1Oracle).raised = true ∧
     (dispatch_msg c10State "7" c10Msg c1Oracle).st.odp_user_state "7" = some true ∧
     (dispatch_msg c10State "7" c10Msg c1Oracle).st.user_data "7" = some c10Session ∧
     (dispatch_msg c10State "7" c10Msg c1Oracle).effs = []) ∧
    ((dispatch_msg c10State "7" c10Geo c1Oracle).raised = false ∧
     (dispatch_msg c10State "7" c10Geo c1Oracle).st.odp_user_state "7" = some false ∧
     (dispatch_msg c10State "7" c10Geo c1Oracle).st.user_data "7" = some c10Session ∧
     (dispatch_msg c10State "7" c10Geo c1Oracle).effs = [Effect.odpNearest 5 6]) :=
  ⟨⟨by decide, by decide, by decide, by decide⟩,
   ⟨by decide, by decide, by decide, by decide⟩⟩
